import Mathlib

/-!
# Verification of the SUEF video preprocessing / training utilities

Shallow embedding of the relevant parts of the repository:
* `src/data/data_augmentations.py` (class `DataAugmentations`),
* `src/models/multi_stream.py` (`MultiStream`, `MultiStreamShared`),
* `src/utils/ddp_utils.py` (`AverageMeterDDP`, `DistributedWeightedSampler`).

Videos are 4-dimensional numpy arrays of shape `(L, H, W, C)`.  We embed
them as a shape tuple together with a total pixel function; machine floats
are modelled by exact rationals.  The `transform_size` pipeline, whose
claims are purely about shapes and raised exceptions, is embedded at the
level of shape tuples (`List Nat`), with every step's effect on the shape
and every raised exception translated from the source.
-/

namespace SUEF

/-- Python exception classes that the embedded code can raise. -/
inductive PyErr where
  | valueError
  | indexError
  | assertionError
  | attributeError
  | nameError
  | zeroDivisionError
  | runtimeError
deriving DecidableEq, Repr

/-- Python `int(x)` on a float: truncation toward zero. -/
def pyInt (q : ℚ) : ℤ := if 0 ≤ q then ⌊q⌋ else ⌈q⌉

/-- numpy `.astype(np.uint8)` on a float value: truncation toward zero
followed by the modular wrap into `0..255`. -/
def astypeUint8 (x : ℚ) : ℚ := ((pyInt x % 256 : ℤ) : ℚ)

/-- Python `int(d / 2)` for an integer `d` (true division, then truncation). -/
def truncHalf (d : ℤ) : ℤ := pyInt ((d : ℚ) / 2)

/-- A 4-D video array of shape `(len, height, width, chan)`.  `data` is the
pixel lookup `data frame row col channel`; indices outside the shape are
irrelevant to every statement below. -/
structure NVid where
  len : ℕ
  height : ℕ
  width : ℕ
  chan : ℕ
  data : ℕ → ℕ → ℕ → ℕ → ℚ

/-- Normalisation of a python slice bound to an actual index:
negative bounds count from the end, and both ends clamp into `0..n`. -/
def pyIdx (n : ℕ) (i : ℤ) : ℕ :=
  if i < 0 then (max 0 ((n : ℤ) + i)).toNat else (min i (n : ℤ)).toNat

/-- `video[s:e]` on the leading (frame) axis, with full python slice
semantics (negative indices, clamping). -/
def sliceFirst (v : NVid) (s e : ℤ) : NVid :=
  { v with
    len := pyIdx v.len e - pyIdx v.len s
    data := fun l h w c => v.data (pyIdx v.len s + l) h w c }

/-- The transform-settings block of `DataAugmentations` (the fields of
`self.transforms` that `transform_size` and the length/size transforms read). -/
structure TransformsCfg where
  grayscale : Bool
  rescale_fps : Bool
  rescale_fphb : Bool
  resize_frames : Bool
  rwave_data_only : Bool
  crop_sides : Bool
  crop_length : Bool
  loop_length : Bool
  pad_length : Bool
  target_fps : ℚ
  target_fphb : ℕ
  target_length : ℕ
  target_height : ℕ
  target_width : ℕ
deriving DecidableEq, Repr

/-- `DataAugmentations.t_crop`: the crop sequence is `(0, L - target_length)`
on the leading axis (frames removed from the end) when `crop_length` is set
and the video is too long, and `(0, 0)` on every other axis; the result is
cast to `uint8`.  Frame indices are therefore unchanged. -/
def t_crop (cfg : TransformsCfg) (v : NVid) : NVid :=
  { v with
    len := if cfg.crop_length = true ∧ cfg.target_length < v.len then cfg.target_length else v.len
    data := fun l h w c => astypeUint8 (v.data l h w c) }

/-- Follows the claim's words, for comparison with `t_crop`: removes `L - T`
frames from the start, i.e. returns the last `T` frames (cast to `uint8`). -/
def t_crop_claim_lastFrames (cfg : TransformsCfg) (v : NVid) : NVid :=
  { v with
    len := cfg.target_length
    data := fun l h w c => astypeUint8 (v.data (l + (v.len - cfg.target_length)) h w c) }

/-- `DataAugmentations.calc_rwave_data`: scan adjacent r-wave timestamps
(milliseconds) and return the largest adjacent gap in seconds together with
the index pair realising it (strict improvement, so the earliest maximum wins). -/
def calc_rwave_data (rwaves : List ℚ) : ℚ × ℕ × ℕ :=
  rwaves.enum.foldl
    (fun acc p =>
      if p.1 ≠ 0 ∧ acc.1 < (rwaves.getD p.1 0 - rwaves.getD (p.1 - 1) 0) / 1000 then
        ((rwaves.getD p.1 0 - rwaves.getD (p.1 - 1) 0) / 1000, p.1 - 1, p.1)
      else acc)
    (0, 0, 0)

/-- `DataAugmentations.calc_fphb`: `fps / (hr/60)`; python raises
`ZeroDivisionError` when `hr = 0`. -/
def calc_fphb (hr fps : ℚ) : Except PyErr ℚ :=
  if hr / 60 = 0 then .error .zeroDivisionError else .ok (fps / (hr / 60))

/-- `DataAugmentations.calc_rwave_fphb`: `fps / (1/rwave_diff)`; python
raises `ZeroDivisionError` when `rwave_diff = 0`. -/
def calc_rwave_fphb (rwave_diff fps : ℚ) : Except PyErr ℚ :=
  if rwave_diff = 0 then .error .zeroDivisionError else .ok (fps / (1 / rwave_diff))

/-- The end-overflow fixup at the top of `t_crop_rwave`: if the computed end
frame exceeds the video length, both bounds are shifted down by one. -/
def rwFixed (L : ℕ) (s0 e0 : ℤ) : ℤ × ℤ :=
  if (L : ℤ) < e0 then (s0 - 1, e0 - 1) else (s0, e0)

/-- The single ±1-frame correction step of `t_crop_rwave`, acting on the
fixed-up window `(s1, e1)`; `.error .valueError` is the
"Cannot extend crop into correct shape" raise. -/
def rwaveWindow (T L : ℕ) (s1 e1 : ℤ) : Except PyErr (ℤ × ℤ) :=
  if e1 - s1 < T then
    if e1 < L then .ok (s1, e1 + 1)
    else if 0 < s1 then .ok (s1 - 1, e1)
    else .error .valueError
  else if (T : ℤ) < e1 - s1 then
    if s1 < e1 - 1 then .ok (s1 + 1, e1)
    else if s1 + 1 < e1 then .ok (s1, e1 - 1)
    else .error .valueError
  else .ok (s1, e1)

/-- The start (resp. end) frame computation of `t_crop_rwave`:
`int((rwaves[i] / 1000) * fps)` (only used with `i` in range). -/
def rwFrame (rwaves : List ℚ) (i : ℕ) (fps : ℚ) : ℤ :=
  pyInt (rwaves.getD i 0 / 1000 * fps)

/-- `DataAugmentations.t_crop_rwave`; `T` is `self.transforms.target_fphb`.
Base case: a video already of length `T` is returned as is.  Otherwise the
window bounds are computed from the r-wave timestamps (`IndexError` when an
index is out of range), fixed up, corrected by at most one frame, and the
slice `video[start:end]` is returned. -/
def t_crop_rwave (T : ℕ) (v : NVid) (rwaves : List ℚ) (i0 i1 : ℕ) (fps : ℚ) :
    Except PyErr NVid :=
  if v.len = T then .ok v
  else if i0 < rwaves.length ∧ i1 < rwaves.length then
    let p := rwFixed v.len (rwFrame rwaves i0 fps) (rwFrame rwaves i1 fps)
    (rwaveWindow T v.len p.1 p.2).map (fun q => sliceFirst v q.1 q.2)
  else .error .indexError

/-- Length-level version of `t_crop_rwave`, used inside the shape-level
`transform_size` pipeline (it shares `rwFixed`/`rwaveWindow` with the full
version and only records the length of the returned slice). -/
def cropRwaveLen (T L : ℕ) (rwaves : List ℚ) (i0 i1 : ℕ) (fps : ℚ) :
    Except PyErr ℕ :=
  if L = T then .ok L
  else if i0 < rwaves.length ∧ i1 < rwaves.length then
    let p := rwFixed L (rwFrame rwaves i0 fps) (rwFrame rwaves i1 fps)
    (rwaveWindow T L p.1 p.2).map (fun q => pyIdx L q.2 - pyIdx L q.1)
  else .error .indexError

/-- The condition under which `t_crop_rwave`'s correction step raises the
"Cannot extend crop into correct shape" error, in terms of the fixed-up
window `(s1, e1)`: the window is too short with the end at or past the
sequence end and the start at or below zero, or too long with no room to
shrink. -/
def rwaveRaises (T L : ℕ) (s1 e1 : ℤ) : Prop :=
  (e1 - s1 < T ∧ ¬e1 < L ∧ ¬0 < s1) ∨
  ((T : ℤ) < e1 - s1 ∧ ¬s1 < e1 - 1 ∧ ¬s1 + 1 < e1)

instance (T L : ℕ) (s1 e1 : ℤ) : Decidable (rwaveRaises T L s1 e1) := by
  unfold rwaveRaises
  infer_instance

/-! ## Shape-level embedding of `transform_size`

The claims about `transform_size` (C1, C4) concern only array shapes and
raised exceptions, so the pipeline is embedded on shape tuples
(`List ℕ`, one entry per axis).  Each step records exactly the effect the
source (together with the documented skimage/numpy shape contracts) has on
the shape, and every exception the source can raise. -/

/-- Outcome of a `transform_size` run: a final shape, a raised exception, or
non-termination (the `while` loop of `t_loop_length` on an empty sequence). -/
inductive SizeResult where
  | ok (s : List ℕ)
  | err (e : PyErr)
  | diverge
deriving DecidableEq, Repr

/-- `t_grayscale_mean` at the shape level: `np.average(img, axis=-1)` drops
the channel axis (the source has no `expand_dims`, so the result really is
3-dimensional, contrary to the docstring's `(L,H,W,1)`). -/
def grayStep (cfg : TransformsCfg) (s : List ℕ) : List ℕ :=
  if cfg.grayscale = true then s.dropLast else s

/-- `t_loop_length` at the length level: looping appends copies of the
original until the target is reached, so the final length is
`max L target`; on an empty sequence with a positive target the `while`
loop never terminates (`none`). -/
def loopLenShape (target L : ℕ) : Option ℕ :=
  if L = 0 ∧ 0 < target then none else some (max L target)

/-- `t_pad_length` at the length level: pad the end up to the target. -/
def padLen (target L : ℕ) : ℕ := max L target

/-- `t_crop` at the shape level, as invoked from `transform_size`:
skimage `crop` rejects a 4-tuple `crop_width` on a non-4-D array
(`ValueError`); otherwise only the leading axis can shrink. -/
def cropShape (cfg : TransformsCfg) (s : List ℕ) : Except PyErr (List ℕ) :=
  if s.length ≠ 4 then .error .valueError
  else .ok (if cfg.crop_length = true ∧ cfg.target_length < s.headD 0 then
    cfg.target_length :: s.drop 1
  else s)

/-- The rescale block of `transform_size` (lines 129–154): the inner
mutual-exclusion assertion, the new length by fps or by fphb, the resize
target frame size, and the `t_resize` call.  Returns the new shape together
with the value bound to `curr_fphb` (`none` when that local variable is
never assigned).  skimage `resize` keeps the axes beyond the given
3-element output shape and rejects negative sizes. -/
def rescaleStep (cfg : TransformsCfg) (s : List ℕ) (fps : ℚ) (hr : ℚ)
    (rwave_diff : ℚ) : Except PyErr (List ℕ × Option ℚ) :=
  if cfg.rescale_fps = true ∨ cfg.resize_frames = true ∨ cfg.rescale_fphb = true then
    if cfg.rescale_fps = true ∧ cfg.rescale_fphb = true then .error .assertionError
    else
      let L := s.headD 0
      let newLenE : Except PyErr (ℕ × Option ℚ) :=
        if cfg.rescale_fps = true ∧ ¬cfg.target_fps = fps then
          if fps = 0 then .error .zeroDivisionError
          else
            let nl := pyInt ((L : ℚ) * (cfg.target_fps / fps))
            if nl < 0 then .error .valueError else .ok (nl.toNat, none)
        else if cfg.rescale_fphb = true then
          match (if cfg.rwave_data_only = true then calc_rwave_fphb rwave_diff fps
                 else calc_fphb hr fps) with
          | .error e => .error e
          | .ok curr =>
              if curr = 0 then .error .zeroDivisionError
              else
                let nl := ⌈(L : ℚ) * ((cfg.target_fphb : ℚ) / curr)⌉
                .ok ((if nl < (cfg.target_fphb : ℤ) then cfg.target_fphb else nl.toNat),
                     some curr)
        else .ok (L, none)
      match newLenE with
      | .error e => .error e
      | .ok (nl, curr) =>
          let nh := if cfg.resize_frames = true ∧
              ¬(s.getD 1 0 = cfg.target_height ∧ s.getD 2 0 = cfg.target_width) then
            cfg.target_height else s.getD 1 0
          let nw := if cfg.resize_frames = true ∧
              ¬(s.getD 1 0 = cfg.target_height ∧ s.getD 2 0 = cfg.target_width) then
            cfg.target_width else s.getD 2 0
          .ok (nl :: nh :: nw :: s.drop 3, curr)
  else .ok (s, none)

/-- The r-wave crop step of `transform_size` (lines 167–169): reading
`curr_fphb` when the fphb-rescale branch never ran is an unbound-local
error; otherwise the adjusted fps is computed and `t_crop_rwave` is applied
to the leading axis. -/
def rwaveStep (cfg : TransformsCfg) (s : List ℕ) (rwaves : List ℚ)
    (i0 i1 : ℕ) (fps : ℚ) (curr : Option ℚ) : Except PyErr (List ℕ) :=
  match curr with
  | none => .error .nameError
  | some c =>
      let new_fps := fps * ((cfg.target_fphb : ℚ) / c)
      (cropRwaveLen cfg.target_fphb (s.headD 0) rwaves i0 i1 new_fps).map
        (fun l => l :: s.drop 1)

/-- The final shape validation of `transform_size` (lines 178–179):
python first evaluates `img.shape[3]` (an `IndexError` on a video of fewer
than 4 axes) and then compares the whole shape tuple against
`(target_length, target_height, target_width, img.shape[3])`, raising
`ValueError` on mismatch. -/
def finalShapeCheck (cfg : TransformsCfg) (s : List ℕ) : SizeResult :=
  match s.get? 3 with
  | none => .err .indexError
  | some c =>
      if s ≠ [cfg.target_length, cfg.target_height, cfg.target_width, c] then
        .err .valueError
      else .ok s

/-- `DataAugmentations.transform_size` at the shape level: grayscale,
r-wave gap computation, the rescale block, the triple mutual-exclusion
assertion (line 160), cropping, r-wave cropping, loop extension, padding,
and the final shape validation, in source order. -/
def transform_size (cfg : TransformsCfg) (s0 : List ℕ) (fps : ℚ) (hr : ℚ)
    (rwaves : List ℚ) : SizeResult :=
  match rescaleStep cfg (grayStep cfg s0) fps hr (calc_rwave_data rwaves).1 with
  | .error e => .err e
  | .ok (s2, curr) =>
      if cfg.loop_length = true ∧ cfg.crop_length = true ∧ cfg.rwave_data_only = true then
        .err .assertionError
      else
        match (if cfg.crop_sides = true ∨ cfg.crop_length = true then cropShape cfg s2
               else .ok s2) with
        | .error e => .err e
        | .ok s3 =>
            match (if cfg.rwave_data_only = true then
                     rwaveStep cfg s3 rwaves (calc_rwave_data rwaves).2.1
                       (calc_rwave_data rwaves).2.2 fps curr
                   else .ok s3) with
            | .error e => .err e
            | .ok s4 =>
                match (if cfg.loop_length = true then
                         (loopLenShape cfg.target_length (s4.headD 0)).map
                           (fun l => l :: s4.drop 1)
                       else some s4) with
                | none => .diverge
                | some s5 =>
                    let s6 := if cfg.pad_length = true then
                      padLen cfg.target_length (s5.headD 0) :: s5.drop 1
                    else s5
                    finalShapeCheck cfg s6

/-- The sequence length after the rescale block, for a run with
`rwave_data_only` disabled (so frames-per-heartbeat comes from the heart
rate): by target fps, by target fphb (floored at `target_fphb`), or
unchanged. -/
def rescaledLen (cfg : TransformsCfg) (L : ℕ) (fps hr : ℚ) : ℕ :=
  if cfg.rescale_fps = true ∨ cfg.resize_frames = true ∨ cfg.rescale_fphb = true then
    if cfg.rescale_fps = true ∧ ¬cfg.target_fps = fps then
      (pyInt ((L : ℚ) * (cfg.target_fps / fps))).toNat
    else if cfg.rescale_fphb = true then
      (let nl := ⌈(L : ℚ) * ((cfg.target_fphb : ℚ) / (fps / (hr / 60)))⌉;
       if nl < (cfg.target_fphb : ℤ) then cfg.target_fphb else nl.toNat)
    else L
  else L

/-- The frame height after the rescale block (`t_resize` targets the
configured height exactly when `resize_frames` is set and the frame size is
not already the target). -/
def resizedH (cfg : TransformsCfg) (H W : ℕ) : ℕ :=
  if cfg.resize_frames = true ∧ ¬(H = cfg.target_height ∧ W = cfg.target_width) then
    cfg.target_height else H

/-- The frame width after the rescale block. -/
def resizedW (cfg : TransformsCfg) (H W : ℕ) : ℕ :=
  if cfg.resize_frames = true ∧ ¬(H = cfg.target_height ∧ W = cfg.target_width) then
    cfg.target_width else W

/-- The sequence length after `t_crop`. -/
def croppedLen (cfg : TransformsCfg) (L : ℕ) : ℕ :=
  if cfg.crop_length = true ∧ cfg.target_length < L then cfg.target_length else L

/-- The sequence length after `t_loop_length` (when it terminates). -/
def loopedLen (cfg : TransformsCfg) (L : ℕ) : ℕ :=
  if cfg.loop_length = true then max L cfg.target_length else L

/-- The sequence length after `t_pad_length`. -/
def paddedLen (cfg : TransformsCfg) (L : ℕ) : ℕ :=
  if cfg.pad_length = true then max L cfg.target_length else L

/-- The shape the `transform_size` pipeline produces on a 4-D input when
grayscale conversion and r-wave cropping are disabled and no exception is
raised before the final check: the composition of the rescale, crop, loop
and pad length maps with the resize height/width maps. -/
def expected_shape (cfg : TransformsCfg) (L H W C : ℕ) (fps hr : ℚ) : List ℕ :=
  [paddedLen cfg (loopedLen cfg (croppedLen cfg (rescaledLen cfg L fps hr))),
   resizedH cfg H W, resizedW cfg H W, C]

/-! ## `t_zoom` -/

/-- One frame `(H, W, C)` of a video, as handed to skimage `rescale`. -/
structure Frame where
  fh : ℕ
  fw : ℕ
  fc : ℕ
  fdata : ℕ → ℕ → ℕ → ℚ

/-- `img[l]`: frame `l` of a video. -/
def vFrame (v : NVid) (l : ℕ) : Frame :=
  ⟨v.height, v.width, v.chan, fun h w c => v.data l h w c⟩

/-- `DataAugmentations.t_zoom`, with the random draw `zf0` made an explicit
argument and the third-party `skimage.transform.rescale` kept abstract as
`rescaleF` (the source only reads the rescaled frame's shape and pixels).
Faithfully: factors `< 0` are clamped to `1`; the height/width deltas are
computed from the first frame's rescale; factor exactly `1` or zero delta
returns the input; otherwise the zoomed frame is centre-cropped (factor
`> 1`) or centre-pasted onto a black canvas (factor `< 1`). -/
def t_zoom (rescaleF : ℚ → Frame → Frame) (black : ℚ) (zf0 : ℚ) (v : NVid) : NVid :=
  let zf := if zf0 < 0 then 1 else zf0
  if v.len = 0 then { v with data := fun _ _ _ _ => black }
  else
    let zframe := rescaleF zf (vFrame v 0)
    let dh : ℤ := (zframe.fh : ℤ) - (v.height : ℤ)
    let dw : ℤ := (zframe.fw : ℤ) - (v.width : ℤ)
    if zf = 1 ∨ (dh = 0 ∧ dw = 0) then v
    else if 1 < zf then
      let dhs := truncHalf dh
      let dws := truncHalf dw
      { v with data := fun l h w c =>
          (rescaleF zf (vFrame v l)).fdata (h + dhs.toNat) (w + dws.toNat) c }
    else
      let dhs := (truncHalf |dh|).toNat
      let dhe := zframe.fh + dhs
      let dws := (truncHalf |dw|).toNat
      let dwe := zframe.fw + dws
      { v with data := fun l h w c =>
          if dhs ≤ h ∧ h < dhe ∧ dws ≤ w ∧ w < dwe then
            (rescaleF zf (vFrame v l)).fdata (h - dhs) (w - dws) c
          else black }

/-- Concrete model of `skimage.transform.rescale(frame, zf, multichannel=True)`
used to instantiate `t_zoom` in counterexamples: height and width are the
input sizes scaled by the factor and rounded, the channel count is kept,
and the interpolated pixel content is not modelled (no statement below
inspects pixels of the zoomed region). -/
def rescaleModel (zf : ℚ) (f : Frame) : Frame :=
  ⟨(⌊zf * (f.fh : ℚ) + 1 / 2⌋).toNat, (⌊zf * (f.fw : ℚ) + 1 / 2⌋).toNat, f.fc, f.fdata⟩

/-! ## `t_local_blackout` / `t_local_intensity`

Both augmentations transpose the input to `(C, L, H, W)` with
`video.transpose(3, 0, 1, 2)` — a numpy *view* — and assign into each frame
of the view, so the writes go through to the caller's array.  We model a
call as a pair `(caller's array after the call, returned array)`. -/

/-- `video.transpose(3, 0, 1, 2)`: `(L,H,W,C) → (C,L,H,W)`. -/
def transpose3012 (v : NVid) : NVid :=
  ⟨v.chan, v.len, v.height, v.width, fun c l h w => v.data l h w c⟩

/-- `video.transpose(1, 2, 3, 0)`: `(C,L,H,W) → (L,H,W,C)`. -/
def transpose1230 (u : NVid) : NVid :=
  ⟨u.height, u.width, u.chan, u.len, fun l h w c => u.data c l h w⟩

/-- The blackout assignment loop on the transposed `(C,L,H,W)` view:
`frame[ph:ph+bh, pw:pw+bw] = black` for every channel and frame. -/
def blackoutOnTransposed (u : NVid) (bh bw ph pw : ℕ) (black : ℚ) : NVid :=
  { u with data := fun c l h w =>
      if ph ≤ h ∧ h < ph + bh ∧ pw ≤ w ∧ w < pw + bw then black
      else u.data c l h w }

/-- The intensity assignment loop on the transposed `(C,L,H,W)` view:
the rectangle gets `delta` added, unclipped. -/
def intensityOnTransposed (u : NVid) (ih iw ph pw : ℕ) (delta : ℚ) : NVid :=
  { u with data := fun c l h w =>
      if ph ≤ h ∧ h < ph + ih ∧ pw ≤ w ∧ w < pw + iw then u.data c l h w + delta
      else u.data c l h w }

/-- `np.clip(video, black, white)`, pointwise (returns a fresh array). -/
def clipVid (black white : ℚ) (v : NVid) : NVid :=
  { v with data := fun l h w c => max black (min white (v.data l h w c)) }

/-- `DataAugmentations.t_local_blackout` with the random sizes/positions
explicit.  First component: the caller's input array after the call (the
assignments mutate it through the transpose view); second component: the
returned array (the mutated view transposed back). -/
def t_local_blackout (v : NVid) (bh bw ph pw : ℕ) (black : ℚ) : NVid × NVid :=
  let mutated := blackoutOnTransposed (transpose3012 v) bh bw ph pw black
  (transpose1230 mutated, transpose1230 mutated)

/-- `DataAugmentations.t_local_intensity` with the random sizes/positions
and intensity delta explicit.  The caller's array receives the unclipped
rectangle addition; the returned array is the `np.clip` of it (a fresh
array, so the clip does not write back). -/
def t_local_intensity (v : NVid) (ih iw ph pw : ℕ) (delta black white : ℚ) :
    NVid × NVid :=
  let mutated := intensityOnTransposed (transpose3012 v) ih iw ph pw delta
  (transpose1230 mutated, transpose1230 (clipVid black white mutated))

/-- The rectangle update `t_local_blackout` performs, written directly in
the original `(L,H,W,C)` axis order (for comparison with the
transpose-conjugated definition). -/
def blackoutDirect (v : NVid) (bh bw ph pw : ℕ) (black : ℚ) : NVid :=
  { v with data := fun _l h w c =>
      if ph ≤ h ∧ h < ph + bh ∧ pw ≤ w ∧ w < pw + bw then black
      else v.data _l h w c }

/-- The rectangle update `t_local_intensity` performs (unclipped), written
directly in the original `(L,H,W,C)` axis order. -/
def intensityDirect (v : NVid) (ih iw ph pw : ℕ) (delta : ℚ) : NVid :=
  { v with data := fun l h w c =>
      if ph ≤ h ∧ h < ph + ih ∧ pw ≤ w ∧ w < pw + iw then v.data l h w c + delta
      else v.data l h w c }

/-! ## `AverageMeterDDP` (src/utils/ddp_utils.py)

With no active process group `is_dist_avail_and_initialized()` is false, so
`step = 1` and `update` performs no all-reduce.  The per-slot vectors are
embedded as total functions; `update` writes slots `0 .. n_classes - 1`. -/

structure AverageMeterDDP where
  n_classes : ℕ
  val : ℕ → ℚ
  sum : ℕ → ℚ
  avg : ℕ → ℚ
  count : ℕ
  step : ℕ

/-- `AverageMeterDDP.__init__(n_classes)` with no active process group. -/
def AverageMeterDDP.init (n : ℕ) : AverageMeterDDP :=
  ⟨n, fun _ => 0, fun _ => 0, fun _ => 0, 0, 1⟩

/-- `AverageMeterDDP.update(val)` with no active process group: the counter
advances by `step`, and for each tracked class the value, cumulative sum
and running average are refreshed. -/
def AverageMeterDDP.update (m : AverageMeterDDP) (v : ℕ → ℚ) : AverageMeterDDP :=
  let count := m.count + m.step
  let sum := fun i => if i < m.n_classes then m.sum i + v i else m.sum i
  { m with
    count := count
    val := fun i => if i < m.n_classes then v i else m.val i
    sum := sum
    avg := fun i => if i < m.n_classes then sum i / (count : ℚ) else m.avg i }

/-- A sequence of `update` calls, oldest first. -/
def AverageMeterDDP.runUpdates (m : AverageMeterDDP) (vs : List (ℕ → ℚ)) :
    AverageMeterDDP :=
  vs.foldl AverageMeterDDP.update m

/-! ## `DistributedWeightedSampler` (src/utils/ddp_utils.py) -/

structure DistributedWeightedSampler where
  num_samples : ℕ
  replacement : Bool
  weights : List ℚ

/-- `DistributedWeightedSampler.__init__(dataset, replacement=True)`:
`num_samples` comes from the parent `torch.utils.data.DistributedSampler`
(its per-process sample count); `assert replacement` rejects
`replacement=False`; the weight vector is one `1.0` per dataset element. -/
def mkDistributedWeightedSampler (datasetLen num_samples : ℕ)
    (replacement : Bool) : Except PyErr DistributedWeightedSampler :=
  if replacement = false then .error .assertionError
  else .ok ⟨num_samples, replacement, List.replicate datasetLen 1⟩

/-- `DistributedWeightedSampler.__len__`. -/
def DistributedWeightedSampler.length (s : DistributedWeightedSampler) : ℕ :=
  s.num_samples

/-! ## `MultiStream` / `MultiStreamShared` (src/models/multi_stream.py)

Embedded at the shape level: a tensor is its shape. -/

/-- The shape of a torch tensor. -/
abbrev Tensor := List ℕ

/-- `torch.stack(y, dim=1)`: fails on an empty list or on mismatched
shapes; otherwise inserts a new axis of size `len y` at position 1. -/
def stackDim1 (ys : List Tensor) : Except PyErr Tensor :=
  match ys with
  | [] => .error .runtimeError
  | s :: rest =>
      if rest.all (fun t => t = s) then .ok (s.take 1 ++ [ys.length] ++ s.drop 1)
      else .error .runtimeError

/-- `.squeeze()`: removes every axis of size 1. -/
def squeezeAll (s : Tensor) : Tensor := s.filter (fun d => d ≠ 1)

/-- `nn.Linear(inF, outF)` applied to a tensor: the last axis must equal
`inF` and becomes `outF`. -/
def linearShape (inF outF : ℕ) (s : Tensor) : Except PyErr Tensor :=
  if s.getLast? = some inF then .ok (s.dropLast ++ [outF])
  else .error .runtimeError

/-- `MultiStream.forward(x)`.  After the input-count assertion, the loop
body reads `self.model_name` — an attribute `MultiStream.__init__` never
assigns (the loop variable is `model_name`) — so any nonempty input raises
`AttributeError`; an empty input reaches `torch.stack([])`, which raises.
The forward pass can therefore never succeed. -/
def multiStreamForward (num_models : ℕ) (x : List Tensor) : Except PyErr Tensor :=
  if x.length ≠ num_models then .error .assertionError
  else if x = [] then .error .runtimeError
  else .error .attributeError

/-- `MultiStreamShared.forward(x)`: input-count assertion, even inputs to
the image backbone and odd inputs to the flow backbone, stack on dim 1,
squeeze, ReLU (shape-preserving) and the fusion `Linear(num_models, 1)`. -/
def multiStreamSharedForward (num_models : ℕ) (mImg mFlow : Tensor → Tensor)
    (x : List Tensor) : Except PyErr Tensor :=
  if x.length ≠ num_models then .error .assertionError
  else
    let y := x.enum.map (fun p => if p.1 % 2 = 0 then mImg p.2 else mFlow p.2)
    match stackDim1 y with
    | .error e => .error e
    | .ok s => linearShape num_models 1 (squeezeAll s)

/-! ## Concrete instances used in the counterexamples and witnesses -/

/-- A transform configuration with every flag disabled and targets
`(2, 3, 4)`. -/
def cfg0 : TransformsCfg :=
  ⟨false, false, false, false, false, false, false, false, false, 15, 15, 2, 3, 4⟩

/-- A transform configuration with only `grayscale` enabled and targets
`(2, 2, 2)`. -/
def cfgGray : TransformsCfg :=
  ⟨true, false, false, false, false, false, false, false, false, 15, 15, 2, 2, 2⟩

/-- A transform configuration with `rescale_fphb`, `rwave_data_only` and
`crop_length` enabled but `loop_length` disabled; `target_fphb = 10`,
targets `(10, 2, 2)`. -/
def cfgC4 : TransformsCfg :=
  ⟨false, false, true, false, true, false, true, false, false, 15, 10, 10, 2, 2⟩

/-- A transform configuration with only `crop_length` enabled and
`target_length = 1`. -/
def cfgC5 : TransformsCfg :=
  ⟨false, false, false, false, false, false, true, false, false, 15, 15, 1, 1, 1⟩

/-- A 2-frame `1 × 1 × 1` video whose frames hold `10` and `20`. -/
def v2 : NVid := ⟨2, 1, 1, 1, fun l _ _ _ => if l = 0 then 10 else 20⟩

/-- A single all-`255` frame of size `3 × 3` with one channel. -/
def v3 : NVid := ⟨1, 3, 3, 1, fun _ _ _ _ => 255⟩

/-- A 5-frame `1 × 1 × 1` video whose frame `l` holds `l`. -/
def v5 : NVid := ⟨5, 1, 1, 1, fun l _ _ _ => (l : ℚ)⟩

/-- A 12-frame `2 × 2 × 1` video whose frame `l` holds `l`. -/
def v12 : NVid := ⟨12, 2, 2, 1, fun l _ _ _ => (l : ℚ)⟩

/-- A single all-`255` frame of size `2 × 2` with one channel. -/
def v22 : NVid := ⟨1, 2, 2, 1, fun _ _ _ _ => 255⟩

/-- The configuration `cfgC4` with `loop_length` additionally enabled, so
that all three mutually-excluded length options are on. -/
def cfgC4L : TransformsCfg :=
  ⟨false, false, true, false, true, false, true, true, false, 15, 10, 10, 2, 2⟩

/-! ## Helper lemmas -/

theorem rescaleStep_norwave (cfg : TransformsCfg) (L H W C : ℕ) (fps hr rd : ℚ)
    (hrw : cfg.rwave_data_only = false)
    (hmx : ¬(cfg.rescale_fps = true ∧ cfg.rescale_fphb = true))
    (hfps : 0 < fps) (hhr : 0 < hr) (htf : 0 ≤ cfg.target_fps) :
    rescaleStep cfg [L, H, W, C] fps hr rd =
      .ok ([rescaledLen cfg L fps hr, resizedH cfg H W, resizedW cfg H W, C],
           if cfg.rescale_fphb = true then some (fps / (hr / 60)) else none) := by
  have hne : fps ≠ 0 := ne_of_gt hfps
  have h60 : hr / 60 ≠ 0 := div_ne_zero (ne_of_gt hhr) (by norm_num)
  have hcur : fps / (hr / 60) ≠ 0 := div_ne_zero hne h60
  have hq : (0 : ℚ) ≤ (L : ℚ) * (cfg.target_fps / fps) :=
    mul_nonneg (Nat.cast_nonneg L) (div_nonneg htf hfps.le)
  have hpy : 0 ≤ pyInt ((L : ℚ) * (cfg.target_fps / fps)) := by
    unfold pyInt
    rw [if_pos hq]
    exact Int.floor_nonneg.mpr hq
  unfold rescaleStep rescaledLen resizedH resizedW calc_fphb
  simp only [hrw, Bool.false_eq_true, if_false, List.headD_cons, List.getD, List.drop,
    List.getElem?_cons_zero, List.getElem?_cons_succ]
  split_ifs <;> simp_all <;> omega

theorem cropBranch_eq (cfg : TransformsCfg) (l h w c : ℕ) :
    (if cfg.crop_sides = true ∨ cfg.crop_length = true then cropShape cfg [l, h, w, c]
     else .ok [l, h, w, c]) = .ok [croppedLen cfg l, h, w, c] := by
  unfold cropShape croppedLen
  split_ifs <;> simp_all

theorem finalShapeCheck_four (cfg : TransformsCfg) (a b c d : ℕ) :
    finalShapeCheck cfg [a, b, c, d] =
      (if [a, b, c, d] = [cfg.target_length, cfg.target_height, cfg.target_width, d] then
        .ok [a, b, c, d]
      else .err .valueError) := by
  unfold finalShapeCheck
  by_cases h : [a, b, c, d] = [cfg.target_length, cfg.target_height, cfg.target_width, d]
  · simp [h]
  · simp [h]

theorem rescaleStep_isOk (cfg : TransformsCfg) (s : List ℕ) (fps hr rd : ℚ)
    (hmx : ¬(cfg.rescale_fps = true ∧ cfg.rescale_fphb = true))
    (hfps : 0 < fps) (hhr : 0 < hr) (htf : 0 ≤ cfg.target_fps)
    (hrd : cfg.rwave_data_only = true → rd ≠ 0) :
    ∃ p, rescaleStep cfg s fps hr rd = .ok p := by
  have hne : fps ≠ 0 := ne_of_gt hfps
  have h60 : hr / 60 ≠ 0 := div_ne_zero (ne_of_gt hhr) (by norm_num)
  have hcur : fps / (hr / 60) ≠ 0 := div_ne_zero hne h60
  have hq : (0 : ℚ) ≤ ((s.headD 0 : ℕ) : ℚ) * (cfg.target_fps / fps) :=
    mul_nonneg (Nat.cast_nonneg _) (div_nonneg htf hfps.le)
  have hpy : 0 ≤ pyInt (((s.headD 0 : ℕ) : ℚ) * (cfg.target_fps / fps)) := by
    unfold pyInt
    rw [if_pos hq]
    exact Int.floor_nonneg.mpr hq
  unfold rescaleStep calc_fphb calc_rwave_fphb
  dsimp only
  by_cases hg : (cfg.rescale_fps = true ∨ cfg.resize_frames = true ∨ cfg.rescale_fphb = true)
  · rw [if_pos hg, if_neg hmx]
    by_cases hf : cfg.rescale_fps = true ∧ ¬cfg.target_fps = fps
    · rw [if_pos hf, if_neg hne, if_neg (not_lt.mpr hpy)]
      exact ⟨_, rfl⟩
    · rw [if_neg hf]
      by_cases hb : cfg.rescale_fphb = true
      · rw [if_pos hb]
        by_cases hrw : cfg.rwave_data_only = true
        · have hcur2 : fps / ((1 : ℚ) / rd) ≠ 0 :=
            div_ne_zero hne (one_div_ne_zero (hrd hrw))
          rw [if_pos hrw, if_neg (hrd hrw)]
          dsimp only
          rw [if_neg hcur2]
          exact ⟨_, rfl⟩
        · rw [if_neg hrw, if_neg h60]
          dsimp only
          rw [if_neg hcur]
          exact ⟨_, rfl⟩
      · rw [if_neg hb]
        exact ⟨_, rfl⟩
  · rw [if_neg hg]
    exact ⟨_, rfl⟩

theorem averageMeter_invariant (n : ℕ) (vs : List (ℕ → ℚ)) (m : AverageMeterDDP)
    (hstep : m.step = 1) (hn : m.n_classes = n) :
    (m.runUpdates vs).count = m.count + vs.length ∧
    (∀ i, i < n → (m.runUpdates vs).sum i = m.sum i + (vs.map (fun v => v i)).sum) ∧
    (vs ≠ [] → ∀ i, i < n →
      (m.runUpdates vs).avg i = (m.runUpdates vs).sum i / ((m.runUpdates vs).count : ℚ)) := by
  induction vs generalizing m with
  | nil => simp [AverageMeterDDP.runUpdates]
  | cons v tl ih =>
      have hrec : (m.runUpdates (v :: tl)) = ((m.update v).runUpdates tl) := rfl
      obtain ⟨hc, hs, ha⟩ := ih (m.update v) hstep hn
      refine ⟨?_, ?_, ?_⟩
      · rw [hrec, hc]
        simp [AverageMeterDDP.update, hstep]
        ring
      · intro i hi
        rw [hrec, hs i hi]
        simp [AverageMeterDDP.update, hn ▸ hi]
        ring
      · intro _ i hi
        rw [hrec]
        rcases eq_or_ne tl [] with h | h
        · subst h
          simp [AverageMeterDDP.runUpdates, AverageMeterDDP.update, hn ▸ hi]
        · exact ha h i hi

/-! ## Claim C1 -/

/-- Claim C1, counterexample.  With grayscale conversion enabled the video
entering the final shape check is 3-dimensional (`t_grayscale_mean` drops
the channel axis and never restores it), so evaluating `img.shape[3]`
raises `IndexError` — not the `ValueError` the claim requires for a result
whose shape differs from the 4-axis target. -/
theorem c1_counterexample :
    transform_size cfgGray [2, 2, 2, 3] 1 60 [] = .err .indexError ∧
    PyErr.indexError ≠ PyErr.valueError := by
  constructor
  · decide
  · decide

/-- Claim C1 (amended): on a 4-D input with grayscale conversion and r-wave
cropping disabled, the fps/fphb mutual-exclusion assertion passing, a
positive frame rate and heart rate, a nonnegative target frame rate, and a
terminating loop-extension step, `transform_size` raises `ValueError`
exactly when the transformed shape differs from
`(target_length, target_height, target_width, C)` with `C` the input
channel count, and otherwise returns the transformed video (its shape). -/
theorem transform_size_valueError_iff (cfg : TransformsCfg) (L H W C : ℕ)
    (fps hr : ℚ) (rwaves : List ℚ)
    (hg : cfg.grayscale = false) (hrw : cfg.rwave_data_only = false)
    (hmx : ¬(cfg.rescale_fps = true ∧ cfg.rescale_fphb = true))
    (hfps : 0 < fps) (hhr : 0 < hr) (htf : 0 ≤ cfg.target_fps)
    (hnd : transform_size cfg [L, H, W, C] fps hr rwaves ≠ .diverge) :
    transform_size cfg [L, H, W, C] fps hr rwaves =
      (if expected_shape cfg L H W C fps hr =
          [cfg.target_length, cfg.target_height, cfg.target_width, C] then
        .ok (expected_shape cfg L H W C fps hr)
      else .err .valueError) := by
  have hstep : transform_size cfg [L, H, W, C] fps hr rwaves =
      (match (if cfg.loop_length = true then
                (loopLenShape cfg.target_length
                    (croppedLen cfg (rescaledLen cfg L fps hr))).map
                  (fun l => l :: [resizedH cfg H W, resizedW cfg H W, C])
              else some [croppedLen cfg (rescaledLen cfg L fps hr),
                resizedH cfg H W, resizedW cfg H W, C]) with
       | none => SizeResult.diverge
       | some s5 =>
           finalShapeCheck cfg (if cfg.pad_length = true then
             padLen cfg.target_length (s5.headD 0) :: s5.drop 1 else s5)) := by
    unfold transform_size
    rw [show grayStep cfg [L, H, W, C] = [L, H, W, C] by simp [grayStep, hg]]
    rw [rescaleStep_norwave cfg L H W C fps hr (calc_rwave_data rwaves).1 hrw hmx hfps hhr htf]
    simp only [hrw, Bool.false_eq_true, and_false, if_false, cropBranch_eq,
      List.headD_cons, List.drop]
  rw [hstep] at hnd ⊢
  rcases hloop : (if cfg.loop_length = true then
      (loopLenShape cfg.target_length (croppedLen cfg (rescaledLen cfg L fps hr))).map
        (fun l => l :: [resizedH cfg H W, resizedW cfg H W, C])
    else some [croppedLen cfg (rescaledLen cfg L fps hr),
      resizedH cfg H W, resizedW cfg H W, C]) with _ | s5
  · rw [hloop] at hnd
    exact absurd rfl hnd
  · have hred : (match some s5 with
       | none => SizeResult.diverge
       | some t =>
           finalShapeCheck cfg (if cfg.pad_length = true then
             padLen cfg.target_length (t.headD 0) :: t.drop 1 else t)) =
        finalShapeCheck cfg (if cfg.pad_length = true then
          padLen cfg.target_length (s5.headD 0) :: s5.drop 1 else s5) := rfl
    rw [hred]
    have hs5 : s5 = [loopedLen cfg (croppedLen cfg (rescaledLen cfg L fps hr)),
        resizedH cfg H W, resizedW cfg H W, C] := by
      by_cases hl : cfg.loop_length = true
      · rw [if_pos hl] at hloop
        unfold loopLenShape at hloop
        by_cases hz : croppedLen cfg (rescaledLen cfg L fps hr) = 0 ∧ 0 < cfg.target_length
        · rw [if_pos hz] at hloop
          simp at hloop
        · rw [if_neg hz] at hloop
          simp only [Option.map_some'] at hloop
          rw [← Option.some.inj hloop]
          unfold loopedLen
          rw [if_pos hl]
      · rw [if_neg hl] at hloop
        rw [← Option.some.inj hloop]
        unfold loopedLen
        rw [if_neg hl]
    rw [hs5]
    by_cases hp : cfg.pad_length = true
    · rw [if_pos hp]
      simp only [List.headD_cons, List.drop_one, List.tail_cons]
      rw [finalShapeCheck_four]
      have hexp : expected_shape cfg L H W C fps hr =
          [padLen cfg.target_length
             (loopedLen cfg (croppedLen cfg (rescaledLen cfg L fps hr))),
           resizedH cfg H W, resizedW cfg H W, C] := by
        unfold expected_shape paddedLen padLen
        rw [if_pos hp]
      rw [← hexp]
    · rw [if_neg hp]
      rw [finalShapeCheck_four]
      have hexp : expected_shape cfg L H W C fps hr =
          [loopedLen cfg (croppedLen cfg (rescaledLen cfg L fps hr)),
           resizedH cfg H W, resizedW cfg H W, C] := by
        unfold expected_shape paddedLen
        rw [if_neg hp]
      rw [← hexp]

/-- Claim C1, witness: the all-flags-off configuration on an input already
of the target shape runs to completion and returns it. -/
theorem transform_size_valueError_iff_witness :
    cfg0.grayscale = false ∧ cfg0.rwave_data_only = false ∧
    transform_size cfg0 [2, 3, 4, 5] 1 60 [] = .ok [2, 3, 4, 5] := by
  refine ⟨rfl, rfl, ?_⟩
  have h := transform_size_valueError_iff cfg0 2 3 4 5 1 60 [] rfl rfl
    (by simp [cfg0]) (by norm_num) (by norm_num) (by norm_num [cfg0]) (by decide)
  have hexp : expected_shape cfg0 2 3 4 5 1 60 = [2, 3, 4, 5] := by
    norm_num [expected_shape, rescaledLen, resizedH, resizedW, croppedLen, loopedLen,
      paddedLen, cfg0]
  rw [h, hexp]
  decide

/-! ## Claim C2 -/

/-- Claim C2: both forward passes raise the input-count assertion on a
mismatched input list; with a matching count, `MultiStreamShared.forward`
on a batch of 3 produces shape `(3, 1)` — but `MultiStream.forward` with a
matching count raises `AttributeError`: its loop body reads
`self.model_name`, an attribute `MultiStream.__init__` never assigns, so
the independent-backbone forward pass can never succeed (the code slip the
claim's success half runs into). -/
theorem multiStream_contract_eval :
    multiStreamForward 2 [[3, 8, 8, 8]] = .error .assertionError ∧
    multiStreamSharedForward 2 (fun _ => [3, 1]) (fun _ => [3, 1]) [[3, 9]] =
      .error .assertionError ∧
    multiStreamSharedForward 2 (fun _ => [3, 1]) (fun _ => [3, 1]) [[3, 9], [3, 9]] =
      .ok [3, 1] ∧
    multiStreamForward 2 [[3, 9], [3, 9]] = .error .attributeError :=
  ⟨rfl, rfl, rfl, rfl⟩

/-! ## Claim C3 -/

/-- Claim C3, counterexample.  With `target_fphb = 10`, a 12-frame video,
r-waves at 0 ms and 8000 ms and 1 fps, the initial window is `[0, 8)`
(2 frames short); the "correction loop" is in fact a single ±1-frame step,
so `t_crop_rwave` returns a 9-frame window — neither exactly `target_fphb`
frames nor the "Cannot extend crop" error. -/
theorem c3_counterexample :
    calc_rwave_data [0, 8000] = (8, 0, 1) ∧
    v12.len = 12 ∧ (12 : ℕ) ≠ 10 ∧
    (t_crop_rwave 10 v12 [0, 8000] 0 1 1).toOption.map NVid.len = some 9 ∧
    (9 : ℕ) ≠ 10 := by
  refine ⟨?_, rfl, by norm_num, ?_, by norm_num⟩
  · norm_num [calc_rwave_data, List.enum, List.enumFrom]
  · have h : t_crop_rwave 10 v12 [0, 8000] 0 1 1 = .ok (sliceFirst v12 0 9) := by
      norm_num [t_crop_rwave, v12, rwFixed, rwFrame, rwaveWindow, pyInt, Except.map]
    rw [h]
    rfl

/-- Claim C3 (amended): for in-range r-wave indices and a fixed-up window
`(s1, e1)` lying inside the video, `t_crop_rwave` raises the
"Cannot extend crop" `ValueError` exactly when the window is too short with
its end at the sequence end and its start at 0 (or too long with no room to
shrink, possible only for `target_fphb = 0`); and whenever the initial
window length is within one frame of `target_fphb` and the error condition
does not hold, the single correction step returns a window of exactly
`target_fphb` frames.  (Windows off by two or more frames are returned
after one ±1 adjustment with the wrong length, which is what refutes the
original claim.) -/
theorem t_crop_rwave_characterization (T : ℕ) (v : NVid) (rwaves : List ℚ)
    (i0 i1 : ℕ) (fps : ℚ) (s1 e1 : ℤ)
    (hi0 : i0 < rwaves.length) (hi1 : i1 < rwaves.length)
    (hse : rwFixed v.len (rwFrame rwaves i0 fps) (rwFrame rwaves i1 fps) = (s1, e1))
    (hs : 0 ≤ s1) (he : e1 ≤ (v.len : ℤ)) :
    (t_crop_rwave T v rwaves i0 i1 fps = .error .valueError ↔
      v.len ≠ T ∧ rwaveRaises T v.len s1 e1) ∧
    ((e1 - s1 - (T : ℤ)).natAbs ≤ 1 → ¬(v.len ≠ T ∧ rwaveRaises T v.len s1 e1) →
      ∃ w, t_crop_rwave T v rwaves i0 i1 fps = .ok w ∧ w.len = T) := by
  by_cases hvt : v.len = T
  · refine ⟨?_, ?_⟩
    · simp [t_crop_rwave, hvt]
    · intro _ _
      exact ⟨v, by simp [t_crop_rwave, hvt], hvt⟩
  · have hidx : i0 < rwaves.length ∧ i1 < rwaves.length := ⟨hi0, hi1⟩
    simp only [t_crop_rwave, if_neg hvt, if_pos hidx, hse]
    unfold rwaveWindow
    split_ifs with h1 h2 h3 h4 h5 h6
    · refine ⟨?_, ?_⟩
      · simp only [Except.map, ne_eq, hvt, not_false_iff, true_and, rwaveRaises]
        constructor
        · intro h
          exact absurd h (by simp)
        · rintro (⟨_, hb, _⟩ | ⟨ha, _, _⟩) <;> omega
      · intro hnear _
        refine ⟨sliceFirst v s1 (e1 + 1), rfl, ?_⟩
        simp only [sliceFirst, pyIdx]
        split_ifs <;> omega
    · refine ⟨?_, ?_⟩
      · simp only [Except.map, ne_eq, hvt, not_false_iff, true_and, rwaveRaises]
        constructor
        · intro h
          exact absurd h (by simp)
        · rintro (⟨_, _, hc⟩ | ⟨ha, _, _⟩) <;> omega
      · intro hnear _
        refine ⟨sliceFirst v (s1 - 1) e1, rfl, ?_⟩
        simp only [sliceFirst, pyIdx]
        split_ifs <;> omega
    · refine ⟨?_, ?_⟩
      · simp only [ne_eq, hvt, not_false_iff, true_and, rwaveRaises]
        constructor
        · intro _
          exact Or.inl ⟨h1, h2, h3⟩
        · intro _
          rfl
      · intro _ hnr
        exact absurd ⟨hvt, Or.inl ⟨h1, h2, h3⟩⟩ hnr
    · refine ⟨?_, ?_⟩
      · simp only [Except.map, ne_eq, hvt, not_false_iff, true_and, rwaveRaises]
        constructor
        · intro h
          exact absurd h (by simp)
        · rintro (⟨ha, _, _⟩ | ⟨_, hb, _⟩) <;> omega
      · intro hnear _
        refine ⟨sliceFirst v (s1 + 1) e1, rfl, ?_⟩
        simp only [sliceFirst, pyIdx]
        split_ifs <;> omega
    · refine ⟨?_, ?_⟩
      · simp only [Except.map, ne_eq, hvt, not_false_iff, true_and, rwaveRaises]
        constructor
        · intro h
          exact absurd h (by simp)
        · rintro (⟨ha, _, _⟩ | ⟨_, hb, _⟩) <;> omega
      · intro hnear _
        refine ⟨sliceFirst v s1 (e1 - 1), rfl, ?_⟩
        simp only [sliceFirst, pyIdx]
        split_ifs <;> omega
    · refine ⟨?_, ?_⟩
      · simp only [ne_eq, hvt, not_false_iff, true_and, rwaveRaises]
        constructor
        · intro _
          exact Or.inr ⟨h4, h5, h6⟩
        · intro _
          rfl
      · intro _ hnr
        exact absurd ⟨hvt, Or.inr ⟨h4, h5, h6⟩⟩ hnr
    · refine ⟨?_, ?_⟩
      · simp only [Except.map, ne_eq, hvt, not_false_iff, true_and, rwaveRaises]
        constructor
        · intro h
          exact absurd h (by simp)
        · rintro (⟨ha, _, _⟩ | ⟨hb, _, _⟩) <;> omega
      · intro hnear _
        refine ⟨sliceFirst v s1 e1, rfl, ?_⟩
        simp only [sliceFirst, pyIdx]
        split_ifs <;> omega

/-- Claim C3, witness: a 5-frame video with a one-frame-too-long window
`[0, 3)` for `target_fphb = 2` is corrected to exactly 2 frames. -/
theorem t_crop_rwave_characterization_witness :
    rwFixed 5 (rwFrame [0, 3000] 0 1) (rwFrame [0, 3000] 1 1) = (0, 3) ∧
    (∃ w, t_crop_rwave 2 v5 [0, 3000] 0 1 1 = .ok w ∧ w.len = 2) := by
  have hse : rwFixed v5.len (rwFrame [0, 3000] 0 1) (rwFrame [0, 3000] 1 1) = (0, 3) := by
    norm_num [rwFixed, rwFrame, pyInt, v5]
  refine ⟨hse, ?_⟩
  have h := t_crop_rwave_characterization 2 v5 [0, 3000] 0 1 1 0 3
    (by norm_num) (by norm_num) hse (by norm_num) (by norm_num [v5])
  refine h.2 (by decide) ?_
  intro hcon
  rcases hcon with ⟨_, hr⟩
  simp only [rwaveRaises, v5] at hr
  omega

/-! ## Claim C4 -/

/-- Claim C4, counterexample.  The assertion on line 160 is
`assert not (loop_length and crop_length and rwave_data_only)`, so enabling
only `crop_length` and `rwave_data_only` (with `loop_length` off) passes
it: this run completes successfully instead of failing an assertion. -/
theorem c4_counterexample :
    transform_size cfgC4 [20, 2, 2, 1] 10 60 [0, 1000] = .ok [10, 2, 2, 1] ∧
    SizeResult.ok [10, 2, 2, 1] ≠ .err .assertionError := by
  constructor
  · norm_num [transform_size, cfgC4, grayStep, calc_rwave_data, List.enum, List.enumFrom,
      rescaleStep, calc_rwave_fphb, cropShape, rwaveStep, cropRwaveLen, loopLenShape,
      padLen, finalShapeCheck, pyInt, pyIdx, Except.map]
  · decide

/-- Claim C4 (amended): the mutual-exclusion assertion of `transform_size`
fires exactly on the conjunction of all three length options — it raises
`AssertionError` whenever `loop_length`, `crop_length` and
`rwave_data_only` are simultaneously enabled (and the earlier rescale block
raises nothing); `crop_length` together with `rwave_data_only` alone is not
rejected. -/
theorem transform_size_triple_assert (cfg : TransformsCfg) (s0 : List ℕ)
    (fps hr : ℚ) (rwaves : List ℚ)
    (hl : cfg.loop_length = true) (hc : cfg.crop_length = true)
    (hrw : cfg.rwave_data_only = true)
    (hmx : ¬(cfg.rescale_fps = true ∧ cfg.rescale_fphb = true))
    (hfps : 0 < fps) (hhr : 0 < hr) (htf : 0 ≤ cfg.target_fps)
    (hrd : (calc_rwave_data rwaves).1 ≠ 0) :
    transform_size cfg s0 fps hr rwaves = .err .assertionError := by
  obtain ⟨p, hres⟩ := rescaleStep_isOk cfg (grayStep cfg s0) fps hr
    (calc_rwave_data rwaves).1 hmx hfps hhr htf (fun _ => hrd)
  obtain ⟨s2, curr⟩ := p
  unfold transform_size
  rw [hres]
  simp only [hl, hc, hrw, and_self, if_true]

/-- Claim C4, witness: with all three length options enabled the pipeline
fails the assertion. -/
theorem transform_size_triple_assert_witness :
    cfgC4L.loop_length = true ∧ cfgC4L.crop_length = true ∧
    cfgC4L.rwave_data_only = true ∧
    transform_size cfgC4L [20, 2, 2, 1] 10 60 [0, 1000] = .err .assertionError := by
  refine ⟨rfl, rfl, rfl, ?_⟩
  have hrd : (calc_rwave_data [0, 1000]).1 ≠ 0 := by
    have h : calc_rwave_data [0, 1000] = (1, 0, 1) := by
      norm_num [calc_rwave_data, List.enum, List.enumFrom]
    rw [h]
    norm_num
  exact transform_size_triple_assert cfgC4L [20, 2, 2, 1] 10 60 [0, 1000] rfl rfl rfl
    (by simp [cfgC4L]) (by norm_num) (by norm_num) (by norm_num [cfgC4L]) hrd

/-! ## Claim C5 -/

/-- Claim C5, counterexample.  `t_crop` builds the crop sequence
`(0, L - target_length)` on the frame axis, i.e. it removes the excess from
the **end**: on the 2-frame video with frames `10, 20` and target length 1
it keeps frame `10`, not the last frame `20` as the claim states. -/
theorem c5_counterexample :
    cfgC5.crop_length = true ∧ cfgC5.target_length < v2.len ∧
    t_crop cfgC5 v2 ≠ t_crop_claim_lastFrames cfgC5 v2 := by
  refine ⟨rfl, by norm_num [cfgC5, v2], fun h => ?_⟩
  have h0 := congrArg (fun u => u.data 0 0 0 0) h
  simp only [t_crop, t_crop_claim_lastFrames, cfgC5, v2] at h0
  norm_num [astypeUint8, pyInt] at h0

/-- Claim C5 (amended): with `crop_length` enabled and `L > target_length`,
`t_crop` removes exactly `L - target_length` frames from the **end** of the
sequence: the result is the first `target_length` frames of the input, cast
to `uint8`. -/
theorem t_crop_removes_from_end (cfg : TransformsCfg) (v : NVid)
    (hc : cfg.crop_length = true) (hl : cfg.target_length < v.len) :
    (t_crop cfg v).len = cfg.target_length ∧
    ∀ l h w c : ℕ, (t_crop cfg v).data l h w c = astypeUint8 (v.data l h w c) := by
  constructor
  · simp [t_crop, hc, hl]
  · intro l h w c
    rfl

/-- Claim C5, witness. -/
theorem t_crop_removes_from_end_witness :
    cfgC5.crop_length = true ∧ cfgC5.target_length < v2.len ∧
    (t_crop cfgC5 v2).len = cfgC5.target_length := by
  refine ⟨rfl, by norm_num [cfgC5, v2], ?_⟩
  exact (t_crop_removes_from_end cfgC5 v2 rfl (by norm_num [cfgC5, v2])).1

/-! ## Claim C6 -/

/-- Claim C6: with no active process group (`step = 1`), after any
nonempty sequence of `update` calls the sample counter equals the number
of calls and, in every tracked slot, the stored average equals the
arithmetic mean of all values passed so far. -/
theorem averageMeter_mean (n : ℕ) (vs : List (ℕ → ℚ)) (hne : vs ≠ []) (i : ℕ)
    (hi : i < n) :
    ((AverageMeterDDP.init n).runUpdates vs).count = vs.length ∧
    ((AverageMeterDDP.init n).runUpdates vs).avg i =
      (vs.map (fun v => v i)).sum / (vs.length : ℚ) := by
  obtain ⟨hc, hs, ha⟩ := averageMeter_invariant n vs (AverageMeterDDP.init n) rfl rfl
  have hc2 : ((AverageMeterDDP.init n).runUpdates vs).count = vs.length := by
    rw [hc]
    simp [AverageMeterDDP.init]
  refine ⟨hc2, ?_⟩
  rw [ha hne i hi, hs i hi, hc2]
  simp [AverageMeterDDP.init]

/-- Claim C6, witness: two updates with values 3 and 5 give average 4. -/
theorem averageMeter_mean_witness :
    ([fun _ => (3 : ℚ), fun _ => 5] ≠ ([] : List (ℕ → ℚ))) ∧ (0 < 1) ∧
    ((AverageMeterDDP.init 1).runUpdates [fun _ => 3, fun _ => 5]).avg 0 = 4 := by
  refine ⟨by simp, by norm_num, ?_⟩
  have h := averageMeter_mean 1 [fun _ => 3, fun _ => 5] (by simp) 0 (by norm_num)
  rw [h.2]
  norm_num

/-! ## Claim C7 -/

/-- Claim C7: `DistributedWeightedSampler` constructed with
`replacement=False` fails the constructor assertion, and constructed with
`replacement=True` its reported length equals the parent distributed
sampler's per-process `num_samples`. -/
theorem distributedWeightedSampler_spec (datasetLen num_samples : ℕ) :
    mkDistributedWeightedSampler datasetLen num_samples false =
      .error .assertionError ∧
    (mkDistributedWeightedSampler datasetLen num_samples true).map
      DistributedWeightedSampler.length = .ok num_samples :=
  ⟨rfl, rfl⟩

/-! ## Claim C8 -/

/-- Claim C8, counterexample.  The clamp in `t_zoom` tests `zoom_factor < 0`
strictly, so a drawn factor of exactly `0` is *not* clamped to 1: with the
shape model of skimage `rescale` the zoomed frame is empty, the size delta
is nonzero, and the all-255 input comes back as a black canvas rather than
unchanged — refuting "every factor ≤ 0 is clamped to 1 and the input is
returned unchanged". -/
theorem c8_counterexample :
    (0 : ℚ) ≤ 0 ∧ t_zoom rescaleModel 0 0 v3 ≠ v3 := by
  refine ⟨le_refl 0, fun h => ?_⟩
  have h0 := congrArg (fun u => u.data 0 0 0 0) h
  norm_num [t_zoom, rescaleModel, vFrame, v3, truncHalf, pyInt] at h0

/-- Claim C8 (amended): for every rescale kernel and nonempty video, a
drawn zoom factor strictly below 0 is clamped to 1 and `t_zoom` returns the
input unchanged; a factor of exactly 1, or one whose rescaled first frame
has no height and width delta, likewise returns the input unchanged.  (A
factor of exactly 0 escapes the clamp, which is the corrected part.) -/
theorem t_zoom_noop_cases (rescaleF : ℚ → Frame → Frame) (black zf : ℚ)
    (v : NVid) (hv : 0 < v.len) :
    (zf < 0 → t_zoom rescaleF black zf v = v) ∧
    (zf = 1 → t_zoom rescaleF black zf v = v) ∧
    ((rescaleF zf (vFrame v 0)).fh = v.height →
      (rescaleF zf (vFrame v 0)).fw = v.width →
      t_zoom rescaleF black zf v = v) := by
  have hne : v.len ≠ 0 := Nat.pos_iff_ne_zero.mp hv
  refine ⟨fun hneg => ?_, fun hone => ?_, fun hh hw => ?_⟩
  · simp [t_zoom, hneg, hne]
  · have hnn : ¬zf < 0 := by
      rw [hone]
      norm_num
    simp [t_zoom, hnn, hone, hne]
  · by_cases hneg : zf < 0
    · simp [t_zoom, hneg, hne]
    · simp [t_zoom, hneg, hne, hh, hw]

/-- Claim C8, witness: zoom factor exactly 1 leaves the video untouched. -/
theorem t_zoom_noop_cases_witness :
    0 < v3.len ∧ t_zoom rescaleModel 0 1 v3 = v3 := by
  refine ⟨by norm_num [v3], ?_⟩
  exact (t_zoom_noop_cases rescaleModel 0 1 v3 (by norm_num [v3])).2.1 rfl

/-! ## Claim C9 -/

/-- Claim C9, counterexample.  `t_local_blackout` assigns into frames of
the numpy transpose *view* of its argument, so the writes reach the
caller's array: after a call with a `1 × 1` rectangle at the origin on an
all-255 video, the caller's array is no longer equal to the input — the
operations are not pure in the claimed sense. -/
theorem c9_counterexample : (t_local_blackout v22 1 1 0 0 0).1 ≠ v22 := by
  intro h
  have h0 := congrArg (fun u => u.data 0 0 0 0) h
  simp only [t_local_blackout, blackoutOnTransposed, transpose3012, transpose1230,
    v22] at h0
  norm_num at h0

/-- Claim C9 (amended): `t_local_blackout` and `t_local_intensity` mutate
the caller's array in place — after the call it equals the direct rectangle
update (blackout, resp. unclipped intensity shift), and the returned array
is that same updated array (clipped, for the intensity augmentation);
apart from this in-place write the operations are functions of the input
and the explicit (randomly drawn) parameters only. -/
theorem t_local_inplace_mutation (v : NVid) (bh bw ph pw : ℕ) (black : ℚ)
    (ih iw qh qw : ℕ) (delta white : ℚ) :
    (t_local_blackout v bh bw ph pw black).1 = blackoutDirect v bh bw ph pw black ∧
    (t_local_blackout v bh bw ph pw black).2 = blackoutDirect v bh bw ph pw black ∧
    (t_local_intensity v ih iw qh qw delta black white).1 =
      intensityDirect v ih iw qh qw delta ∧
    (t_local_intensity v ih iw qh qw delta black white).2 =
      clipVid black white (intensityDirect v ih iw qh qw delta) :=
  ⟨rfl, rfl, rfl, rfl⟩

/-! ## Claim C10 -/

/-- Claim C10: with `crop_length` disabled `t_crop` performs no cropping —
it returns the input unchanged apart from the `uint8` cast — and `t_crop`
never touches the spatial or channel axes for any configuration (the
`crop_sides` flag only routes the call inside `transform_size`, whose crop
step preserves the height, width and channel entries of the shape). -/
theorem t_crop_identity_and_spatial (cfg : TransformsCfg) (v : NVid) :
    (cfg.crop_length = false →
      t_crop cfg v = { v with data := fun l h w c => astypeUint8 (v.data l h w c) }) ∧
    (t_crop cfg v).height = v.height ∧ (t_crop cfg v).width = v.width ∧
    (t_crop cfg v).chan = v.chan ∧
    (∀ l h w c : ℕ, ∃ l2 : ℕ, cropShape cfg [l, h, w, c] = .ok [l2, h, w, c]) := by
  refine ⟨fun hc => ?_, rfl, rfl, rfl, fun l h w c => ?_⟩
  · unfold t_crop
    simp [hc]
  · refine ⟨if cfg.crop_length = true ∧ cfg.target_length < l then cfg.target_length
      else l, ?_⟩
    unfold cropShape
    split_ifs <;> simp_all

/-- Claim C10, witness. -/
theorem t_crop_identity_and_spatial_witness :
    cfg0.crop_length = false ∧
    t_crop cfg0 v2 = { v2 with data := fun l h w c => astypeUint8 (v2.data l h w c) } :=
  ⟨rfl, (t_crop_identity_and_spatial cfg0 v2).1 rfl⟩

end SUEF
